import Mathlib

/-!
Shallow embedding of the `sysinit` repository core
(`sysinit/core/unit.py`, `sysinit/core/command.py`,
`sysinit/core/command_manager.py`, `sysinit/core/unit_manager.py`,
`sysinit/utils.py`).

Strings are modelled by Lean `String` (logically a list of characters);
the filesystem and the trace of shell commands handed to the executor are
modelled by an explicit `World` record threaded through every lifecycle
operation.  A raised Python exception is modelled by `Except.error` carrying
the error kind together with the world at raise time (no command issued
after the raise).  Command side effects on the filesystem happen in the
external shell, outside a single API call; `World.files` is the filesystem
snapshot observed by `os.path.exists` during the call.
-/

namespace Sysinit

/-- Python whitespace characters recognised by `str.strip()`. -/
def isPyWS (c : Char) : Bool :=
  c = ' ' || c = '\t' || c = '\n' || c = '\r' || c = '\x0b' || c = '\x0c'

/-- Strip leading Python whitespace from a character list. -/
def stripLeftL (l : List Char) : List Char := l.dropWhile isPyWS

/-- Strip trailing Python whitespace from a character list. -/
def stripRightL (l : List Char) : List Char := (l.reverse.dropWhile isPyWS).reverse

/-- Python `str.strip()` on a character list. -/
def pyStripL (l : List Char) : List Char := stripRightL (stripLeftL l)

/-- Python `str.strip()`. -/
def pyStrip (s : String) : String := ⟨pyStripL s.data⟩

/-- Python `"\n".join(ls)`. -/
def joinLines (ls : List String) : String := ⟨List.intercalate ['\n'] (ls.map String.data)⟩

/-- The lines of a file's text, as iterated by `for line in f:` (each line is
subsequently `strip()`ped by the caller, so the trailing newline a Python line
iterator keeps is immaterial). -/
def linesOf (s : String) : List String := (s.data.splitOn '\n').map fun l => (⟨l⟩ : String)

/-- `utils.join_path`, i.e. `os.path.join(a, b)` for the two-argument uses in the code. -/
def join_path (a b : String) : String :=
  if b.data.head? = some '/' then b
  else if a = "" then b
  else if a.data.getLast? = some '/' then a ++ b
  else a ++ "/" ++ b

/-- `command.py` `Command`: a named shell command-line with its execution flags. -/
structure Command where
  command_str : String
  sudo_ : Bool
  description : String
  verbose : Bool
  dry_run : Bool
deriving DecidableEq

/-- `Command.__init__`: `description = description or command_str` (a `None` or
empty description falls back to the command line itself). -/
def Command.init (command_str : String) (sudo_ : Bool) (description : Option String)
    (verbose dry_run : Bool) : Command :=
  ⟨command_str, sudo_,
    (match description with
      | none => command_str
      | some d => if d = "" then command_str else d),
    verbose, dry_run⟩

/-- `Command(cmd)` with every keyword left at its default
(`sudo=False, description=None, verbose=True, dry_run=False`). -/
def Command.initDefault (cmd : String) : Command := Command.init cmd false none true false

/-- Result of `subprocess.run(..., capture_output=True, text=True)`. -/
structure ExecResult where
  returncode : Int
  stdout : String
  stderr : String

/-- `CommandEngine.run`: prefixes `sudo`, and under dry-run skips execution and
returns `None` (modelled `none`).  `shell` abstracts the host shell invoked by
`subprocess.run`. -/
def CommandEngine.run (dry_run : Bool) (shell : String → ExecResult)
    (cmd : String) (sudo_ : Bool) : Option ExecResult :=
  let cmd := if sudo_ then "sudo " ++ cmd else cmd
  if dry_run then none else some (shell cmd)

/-- `Command.execute`: delegates to the engine built from the command's own flags. -/
def Command.execute (c : Command) (shell : String → ExecResult) : Option ExecResult :=
  CommandEngine.run c.dry_run shell c.command_str c.sudo_

/-- The attributes stored by `Unit.__init__` (the derived
`service_file_name` and `unit_abs_path` are recomputed functions below,
faithful because `name`, `wanted_by` and `systemd_dir` are never mutated). -/
structure Unit where
  name : String
  description : String
  exec_start : Option Command
  exec_stop : Option Command
  working_directory : Option String
  restart : Option String
  user : Option String
  environment : List (String × String)
  wanted_by : String
  after : Option String
  requires : Option String
  service_type : Option String
  verbose : Bool
  dry_run : Bool
  systemd_dir : String
deriving DecidableEq

/-- `Unit.__init__` with every parameter explicit, in the Python parameter
order; `environment := environment or {}`.  The Python defaults for an omitted
argument are recorded in the constants below. -/
def Unit.init (name description : String) (exec_start exec_stop : Option Command)
    (working_directory service_type restart user : Option String)
    (environment : Option (List (String × String)))
    (wanted_by : String) (after requires : Option String)
    (verbose dry_run : Bool) (systemd_dir : String) : Unit :=
  ⟨name, description, exec_start, exec_stop, working_directory, restart, user,
    environment.getD [], wanted_by, after, requires, service_type,
    verbose, dry_run, systemd_dir⟩

/-- Constructor default `wanted_by="multi-user.target"`. -/
def defaultWantedBy : String := "multi-user.target"

/-- Constructor default `service_type="oneshot"`. -/
def defaultServiceType : Option String := some "oneshot"

/-- Constructor default `dry_run=True`. -/
def defaultDryRun : Bool := true

/-- Constructor default `verbose=False`. -/
def defaultVerbose : Bool := false

/-- Constructor default `systemd_dir="/etc/systemd/system"`. -/
def defaultSystemdDir : String := "/etc/systemd/system"

/-- `self.service_file_name = f"{self.name}.service"`. -/
def Unit.service_file_name (u : Unit) : String := u.name ++ ".service"

/-- `unit_abs_path` property. -/
def Unit.unit_abs_path (u : Unit) : String := join_path u.systemd_dir u.service_file_name

/-- External state observed and affected by a `Unit`: the set of existing
filesystem paths and the ordered trace of commands handed to the executor. -/
structure World where
  files : List String
  trace : List Command
deriving DecidableEq

/-- `utils.path_exists`, i.e. `os.path.exists`. -/
def path_exists (w : World) (p : String) : Bool := w.files.contains p

/-- Hand one command to the executor (`Command(...).execute()`). -/
def World.issue (w : World) (c : Command) : World := ⟨w.files, w.trace ++ [c]⟩

/-- `is_loaded` property: the service file exists in the systemd directory. -/
def Unit.is_loaded (u : Unit) (w : World) : Bool := path_exists w u.unit_abs_path

/-- The error taxonomy of the spec, mapped from the Python exceptions:
`FileExistsError` in `load` ↦ `alreadyLoaded`, `FileNotFoundError` in
`unload` ↦ `notLoaded`, `ValueError` in `to_file` ↦ `pathNotFound`,
`ValueError` in `from_service_file` ↦ `invalidDescriptor`, the generic
`Exception` of `UnitManager` lookups ↦ `unitNotFound`. -/
inductive UnitErr where
  | alreadyLoaded
  | notLoaded
  | pathNotFound
  | invalidDescriptor
  | unitNotFound
deriving DecidableEq

/-- Outcome of a lifecycle call: the new world, or a raised exception paired
with the world at raise time. -/
abbrev UResult := Except (UnitErr × World) World

instance instDecEqExcept {ε α : Type} [DecidableEq ε] [DecidableEq α] :
    DecidableEq (Except ε α) := fun x y =>
  match x, y with
  | .ok a, .ok b =>
    if h : a = b then .isTrue (by rw [h]) else .isFalse (by simp [h])
  | .error e, .error f =>
    if h : e = f then .isTrue (by rw [h]) else .isFalse (by simp [h])
  | .ok _, .error _ => .isFalse (by simp)
  | .error _, .ok _ => .isFalse (by simp)

/-- Python `f"{o}"` for an `Optional[str]`: `None` prints as `"None"`. -/
def optShow (o : Option String) : String :=
  match o with
  | none => "None"
  | some s => s

/-- An `f"Key={field}" if field else ""` line of `generate_service_file_data`:
a `None` or empty optional string field yields the empty entry. -/
def optLine (key : String) (o : Option String) : String :=
  match o with
  | none => ""
  | some s => if s = "" then "" else key ++ "=" ++ s

/-- An `f"Key={cmd.command_str}" if cmd else ""` line: a `Command` object is
always truthy, so any present command produces a line (even an empty
command string). -/
def cmdLine (key : String) (o : Option Command) : String :=
  match o with
  | none => ""
  | some c => key ++ "=" ++ c.command_str

/-- An `f"Environment={k}={v}"` line. -/
def envLine (kv : String × String) : String := "Environment=" ++ kv.1 ++ "=" ++ kv.2

/-- The `lines` list built by `generate_service_file_data` before
`filter(None, ...)`: empty strings stand both for omitted optional fields and
for the literal `""` block separators. -/
def Unit.serviceFileLines (u : Unit) : List String :=
  ["[Unit]",
   "Description=" ++ (if u.description = "" then u.name else u.description),
   optLine "After" u.after,
   optLine "Requires" u.requires,
   "",
   "[Service]",
   "Type=" ++ optShow u.service_type,
   optLine "WorkingDirectory" u.working_directory,
   cmdLine "ExecStart" u.exec_start,
   cmdLine "ExecStop" u.exec_stop,
   optLine "Restart" u.restart,
   optLine "User" u.user]
  ++ u.environment.map envLine
  ++ ["", "[Install]", "WantedBy=" ++ u.wanted_by]

/-- `generate_service_file_data`: `"\n".join(filter(None, lines))` — the
falsy (empty) entries, separators included, are dropped before joining. -/
def Unit.generate_service_file_data (u : Unit) : String :=
  joinLines (u.serviceFileLines.filter fun s => s ≠ "")

/-- The `tee` command built by `to_file` (its `Command(...)` call omits
`verbose`, so that flag is the `Command` default `True`). -/
def Unit.writeCmd (u : Unit) (directory : String) : Command :=
  Command.init
    ("echo \x27" ++ u.generate_service_file_data ++ "\x27 | sudo tee "
      ++ join_path directory u.service_file_name ++ " > /dev/null")
    true (some ("Writing service file for " ++ u.name ++ " to " ++ directory))
    true u.dry_run

/-- The `rm` command built by `unload`. -/
def Unit.rmCmd (u : Unit) : Command :=
  Command.init ("rm " ++ u.unit_abs_path) true
    (some ("Removing service: " ++ u.name)) u.verbose u.dry_run

/-- The `systemctl start` command built by `start`. -/
def Unit.startCmd (u : Unit) : Command :=
  Command.init ("systemctl start " ++ u.service_file_name) true
    (some ("Starting: " ++ u.name ++ " service")) u.verbose u.dry_run

/-- The `systemctl stop` command built by `stop`. -/
def Unit.stopCmd (u : Unit) : Command :=
  Command.init ("systemctl stop " ++ u.service_file_name) true
    (some ("Stopping: " ++ u.name ++ " service")) u.verbose u.dry_run

/-- The `systemctl restart` command built by `restart_unit`. -/
def Unit.restartCmd (u : Unit) : Command :=
  Command.init ("systemctl restart " ++ u.service_file_name) true
    (some ("Restarting: " ++ u.name ++ " service")) u.verbose u.dry_run

/-- The `systemctl status` command built by `status`. -/
def Unit.statusCmd (u : Unit) : Command :=
  Command.init ("systemctl status " ++ u.service_file_name) true
    (some ("Status: " ++ u.name ++ " service")) u.verbose u.dry_run

/-- The `systemctl enable` command built by `enable`. -/
def Unit.enableCmd (u : Unit) : Command :=
  Command.init ("systemctl enable " ++ u.service_file_name) true
    (some ("Enable: " ++ u.name ++ " service")) u.verbose u.dry_run

/-- The `systemctl disable` command built by `disable`. -/
def Unit.disableCmd (u : Unit) : Command :=
  Command.init ("systemctl disable " ++ u.service_file_name) true
    (some ("Disable: " ++ u.name ++ " service")) u.verbose u.dry_run

/-- The `systemctl daemon-reload` command built by `reload_daemon`. -/
def Unit.daemonReloadCmd (u : Unit) : Command :=
  Command.init "systemctl daemon-reload" true
    (some "Reloading systemd daemon") u.verbose u.dry_run

/-- The non-elevated `systemctl is-enabled` query command of `is_enabled`. -/
def Unit.isEnabledCmd (u : Unit) : Command :=
  Command.init ("systemctl is-enabled " ++ u.service_file_name) false
    (some ("Checking enabled: " ++ u.name)) u.verbose u.dry_run

/-- The non-elevated `systemctl is-active` query command of `is_active`. -/
def Unit.isActiveCmd (u : Unit) : Command :=
  Command.init ("systemctl is-active " ++ u.service_file_name) false
    (some ("Checking is-active: " ++ u.name)) u.verbose u.dry_run

/-- `to_file`: raises `ValueError` (`pathNotFound`) when the target directory
does not exist, otherwise hands the `tee` write command to the executor. -/
def Unit.to_file (u : Unit) (dir? : Option String) (w : World) : UResult :=
  let directory :=
    match dir? with
    | none => u.systemd_dir
    | some d => if d = "" then u.systemd_dir else d
  if path_exists w directory then .ok (w.issue (u.writeCmd directory))
  else .error (.pathNotFound, w)

/-- `load`: raises `FileExistsError` (`alreadyLoaded`) when the descriptor
already exists, otherwise `to_file(directory=self.systemd_dir)`. -/
def Unit.load (u : Unit) (w : World) : UResult :=
  if u.is_loaded w then .error (.alreadyLoaded, w)
  else u.to_file (some u.systemd_dir) w

/-- `unload`: raises `FileNotFoundError` (`notLoaded`) when the descriptor is
absent, otherwise issues the `rm` command. -/
def Unit.unload (u : Unit) (w : World) : UResult :=
  if !u.is_loaded w then .error (.notLoaded, w)
  else .ok (w.issue u.rmCmd)

/-- `stop`: issues a single elevated `systemctl stop`; never raises. -/
def Unit.stop (u : Unit) (w : World) : World := w.issue u.stopCmd

/-- `restart_unit`: issues a single elevated `systemctl restart`. -/
def Unit.restart_unit (u : Unit) (w : World) : World := w.issue u.restartCmd

/-- `status`: issues a single elevated `systemctl status`. -/
def Unit.status (u : Unit) (w : World) : World := w.issue u.statusCmd

/-- `enable`: issues a single elevated `systemctl enable`. -/
def Unit.enable (u : Unit) (w : World) : World := w.issue u.enableCmd

/-- `disable`: issues a single elevated `systemctl disable`. -/
def Unit.disable (u : Unit) (w : World) : World := w.issue u.disableCmd

/-- `reload_daemon`: issues a single elevated `systemctl daemon-reload`. -/
def Unit.reload_daemon (u : Unit) (w : World) : World := w.issue u.daemonReloadCmd

/-- `setup`: `if not self.is_loaded: self.load()` then `self.reload_daemon()`;
an exception in `load` propagates before the daemon reload is issued. -/
def Unit.setup (u : Unit) (w : World) : UResult :=
  match (if !u.is_loaded w then u.load w else .ok w) with
  | .ok w1 => .ok (u.reload_daemon w1)
  | .error e => .error e

/-- `start`: `self.setup()` then the elevated `systemctl start` command. -/
def Unit.start (u : Unit) (w : World) : UResult :=
  match u.setup w with
  | .ok w1 => .ok (w1.issue u.startCmd)
  | .error e => .error e

/-- `reload_unit`: `unload()`, `load()`, `reload_daemon()`, with the
exceptions of the first two propagating. -/
def Unit.reload_unit (u : Unit) (w : World) : UResult :=
  match u.unload w with
  | .error e => .error e
  | .ok w1 =>
    match u.load w1 with
    | .error e => .error e
    | .ok w2 => .ok (u.reload_daemon w2)

/-- Marker for the `AttributeError` raised when `res.stdout` is dereferenced
on the `None` a dry-run engine returns. -/
def attrErrNone : String := "AttributeError: NoneType object has no attribute stdout"

/-- `is_enabled` property: executes the non-elevated query command and
compares the stripped stdout with `"enabled"`; under dry-run the engine
returns `None` and the `res.stdout` dereference raises. -/
def Unit.is_enabled (u : Unit) (shell : String → ExecResult) : Except String Bool :=
  match u.isEnabledCmd.execute shell with
  | none => .error attrErrNone
  | some res => .ok (pyStrip res.stdout == "enabled")

/-- `is_active` property: same shape as `is_enabled`, token `"active"`. -/
def Unit.is_active (u : Unit) (shell : String → ExecResult) : Except String Bool :=
  match u.isActiveCmd.execute shell with
  | none => .error attrErrNone
  | some res => .ok (pyStrip res.stdout == "active")

/-- A declarative configuration record (one `services` entry): a Python dict
whose optional keys read through `.get` are modelled as `Option` fields.
`type_` stands for the `"type"` key. -/
structure Config where
  name : String
  description : Option String
  exec_start : Option String
  exec_stop : Option String
  working_directory : Option String
  restart : Option String
  user : Option String
  environment : Option (List (String × String))
  wanted_by : Option String
  after : Option String
  requires : Option String
  type_ : Option String
deriving DecidableEq

/-- `Command(s) if s else None`: a missing or empty command string maps to no
command specification. -/
def pyOptCmd (o : Option String) : Option Command :=
  match o with
  | none => none
  | some s => if s = "" then none else some (Command.initDefault s)

/-- `Unit.from_dict`: builds the unit from a configuration record; the
`**kwargs` not set by the record (`verbose`, `dry_run`, `systemd_dir`) are
passed explicitly (their constructor defaults are the `default*` constants). -/
def Unit.from_dict (config : Config) (verbose dry_run : Bool) (systemd_dir : String) : Unit :=
  Unit.init config.name (config.description.getD "")
    (pyOptCmd config.exec_start) (pyOptCmd config.exec_stop)
    config.working_directory config.type_ config.restart config.user
    config.environment
    (config.wanted_by.getD "multi-user.target")
    config.after config.requires verbose dry_run systemd_dir

/-- Lower-case a character list (`str.lower()` on the ASCII keys involved). -/
def lowerL (l : List Char) : List Char := l.map Char.toLower

/-- The key part of `line.strip().split("=", 1)`. -/
def keyOfL (l : List Char) : List Char := l.takeWhile fun c => c ≠ '='

/-- The value part of `line.strip().split("=", 1)`. -/
def valOfL (l : List Char) : List Char := (l.dropWhile fun c => c ≠ '=').drop 1

/-- One iteration of the parsing loop of `from_service_file`: a line
containing `=` and not starting (after strip) with `#` contributes the binding
`config[key.lower()] = value`. -/
def lineEntries (line : List Char) : List (List Char × List Char) :=
  if '=' ∈ line ∧ (pyStripL line).head? ≠ some '#' then
    [(lowerL (keyOfL (pyStripL line)), valOfL (pyStripL line))]
  else []

/-- The parsed `config` dict of `from_service_file`, as the ordered list of
key–value insertions; reads take the last binding of a key, matching dict
overwrite semantics, and the dict is empty iff this list is empty. -/
def svcConfig (content : String) : List (List Char × List Char) :=
  ((linesOf content).map fun l => lineEntries l.data).flatten

/-- `config.get(k)` over the insertion list: the last binding wins. -/
def cfgGet (cfg : List (List Char × List Char)) (k : String) : Option String :=
  (cfg.reverse.find? fun p => p.1 == k.data).map fun p => (⟨p.2⟩ : String)

/-- `Unit.from_service_file`: parses the descriptor text into the flat
lower-cased key map and rebuilds a unit.  The caller opens the file at
`filepath`; `stem` is `Path(filepath).stem`, the file's base name without
extension, and `content` the file's text.  `environment` is passed as the
empty dict.  As in `from_dict`, the `**kwargs` are the three execution
parameters. -/
def Unit.from_service_file (stem content : String)
    (verbose dry_run : Bool) (systemd_dir : String) : Except UnitErr Unit :=
  if svcConfig content = [] then .error .invalidDescriptor
  else .ok (Unit.init stem ((cfgGet (svcConfig content) "description").getD "")
    (pyOptCmd (cfgGet (svcConfig content) "execstart"))
    (pyOptCmd (cfgGet (svcConfig content) "execstop"))
    (cfgGet (svcConfig content) "workingdirectory") (cfgGet (svcConfig content) "type")
    (cfgGet (svcConfig content) "restart") (cfgGet (svcConfig content) "user")
    (some [])
    ((cfgGet (svcConfig content) "wantedby").getD "multi-user.target")
    (cfgGet (svcConfig content) "after") (cfgGet (svcConfig content) "requires")
    verbose dry_run systemd_dir)

/-- `unit_manager.py` `UnitManager`: the `units` dict as an ordered insertion
list (last binding of a name wins on lookup). -/
structure UnitManager where
  units : List (String × Unit)

/-- `UnitManager.get` / `self.units.get(name)`: absent names give `none`. -/
def UnitManager.get (m : UnitManager) (name : String) : Option Unit :=
  (m.units.reverse.find? fun p => p.1 == name).map fun p => p.2

/-- `UnitManager.add_unit`: insert/overwrite by the unit's own name. -/
def UnitManager.add_unit (m : UnitManager) (u : Unit) : UnitManager :=
  ⟨m.units ++ [(u.name, u)]⟩

/-- `start_service`: raises `unitNotFound` for an unregistered name, else
delegates to `Unit.start`. -/
def UnitManager.start_service (m : UnitManager) (name : String) (w : World) : UResult :=
  match m.get name with
  | none => .error (.unitNotFound, w)
  | some u => u.start w

/-- `stop_service`. -/
def UnitManager.stop_service (m : UnitManager) (name : String) (w : World) : UResult :=
  match m.get name with
  | none => .error (.unitNotFound, w)
  | some u => .ok (u.stop w)

/-- `enable_service`. -/
def UnitManager.enable_service (m : UnitManager) (name : String) (w : World) : UResult :=
  match m.get name with
  | none => .error (.unitNotFound, w)
  | some u => .ok (u.enable w)

/-- `disable_service`. -/
def UnitManager.disable_service (m : UnitManager) (name : String) (w : World) : UResult :=
  match m.get name with
  | none => .error (.unitNotFound, w)
  | some u => .ok (u.disable w)

/-- `reload_service`. -/
def UnitManager.reload_service (m : UnitManager) (name : String) (w : World) : UResult :=
  match m.get name with
  | none => .error (.unitNotFound, w)
  | some u => u.reload_unit w

/-- `load_service`. -/
def UnitManager.load_service (m : UnitManager) (name : String) (w : World) : UResult :=
  match m.get name with
  | none => .error (.unitNotFound, w)
  | some u => u.load w

/-- `unload_service`. -/
def UnitManager.unload_service (m : UnitManager) (name : String) (w : World) : UResult :=
  match m.get name with
  | none => .error (.unitNotFound, w)
  | some u => u.unload w

/-- `restart_service`. -/
def UnitManager.restart_service (m : UnitManager) (name : String) (w : World) : UResult :=
  match m.get name with
  | none => .error (.unitNotFound, w)
  | some u => .ok (u.restart_unit w)

/-- The command string of an optional command (empty when absent). -/
def cmdShow (o : Option Command) : String := (o.map Command.command_str).getD ""

/-- A string free of newline characters. -/
def noNLb (s : String) : Bool := decide ('\n' ∉ s.data)

/-- Every text fragment interpolated into the descriptor is newline-free, so
the generated text splits back into exactly the generated lines. -/
def UnitNoNLb (u : Unit) : Bool :=
  noNLb u.name && noNLb u.description && noNLb (optShow u.after)
    && noNLb (optShow u.requires) && noNLb (optShow u.service_type)
    && noNLb (optShow u.working_directory) && noNLb (cmdShow u.exec_start)
    && noNLb (cmdShow u.exec_stop) && noNLb (optShow u.restart)
    && noNLb (optShow u.user) && noNLb u.wanted_by
    && u.environment.all fun kv => noNLb kv.1 && noNLb kv.2

/-- An optional string field that survives the round trip: absent, or
truthy (nonempty) with no trailing whitespace for `line.strip()` to eat. -/
def strOkOptB (o : Option String) : Bool :=
  match o with
  | none => true
  | some s => s ≠ "" && stripRightL s.data == s.data

/-- An optional command whose command string survives the round trip:
absent, or truthy (nonempty) with no trailing whitespace. -/
def strOkCmdB (o : Option Command) : Bool :=
  match o with
  | none => true
  | some c => c.command_str ≠ "" && stripRightL c.command_str.data == c.command_str.data

/-- Hypotheses under which the descriptor round trip recovers the claimed
fields exactly. -/
def RoundTrippableB (u : Unit) : Bool :=
  UnitNoNLb u && strOkCmdB u.exec_start && strOkCmdB u.exec_stop
    && strOkOptB u.working_directory && strOkOptB u.restart && strOkOptB u.user
    && (stripRightL u.wanted_by.data == u.wanted_by.data)

/-- The scenario unit of the spec:
`Unit(name="web", exec_start=Command("echo start"), exec_stop=Command("echo stop"), environment={"PORT": "8080"})`
with every other constructor argument left at its default. -/
def webUnit : Unit :=
  Unit.init "web" "" (some (Command.initDefault "echo start"))
    (some (Command.initDefault "echo stop"))
    none defaultServiceType none none (some [("PORT", "8080")])
    defaultWantedBy none none defaultVerbose defaultDryRun defaultSystemdDir

/-- The scenario unit with `dry_run=False` (commands actually executed). -/
def webUnitReal : Unit :=
  Unit.init "web" "" (some (Command.initDefault "echo start"))
    (some (Command.initDefault "echo stop"))
    none defaultServiceType none none (some [("PORT", "8080")])
    defaultWantedBy none none defaultVerbose false defaultSystemdDir

/-- The scenario unit with a whitespace-only `working_directory`, breaking the
round trip (the descriptor line `WorkingDirectory= ` is stripped on parse). -/
def webUnitWsDir : Unit :=
  Unit.init "web" "" (some (Command.initDefault "echo start"))
    (some (Command.initDefault "echo stop"))
    (some " ") defaultServiceType none none (some [("PORT", "8080")])
    defaultWantedBy none none defaultVerbose defaultDryRun defaultSystemdDir

/-- A configuration record carrying only the mandatory `name` key. -/
def cfgNameOnly : Config :=
  ⟨"x", none, none, none, none, none, none, none, none, none, none, none⟩

/-- A shell whose every invocation reports `enabled` on stdout. -/
def shellEnabled : String → ExecResult := fun _ => ⟨0, "enabled", ""⟩

/-- An empty world: no filesystem paths, no commands issued yet. -/
def emptyWorld : World := ⟨[], []⟩

/-- A world where the systemd directory exists but no descriptor is present. -/
def dirWorld : World := ⟨["/etc/systemd/system"], []⟩

/-- A world where the scenario unit's descriptor is already installed. -/
def loadedWorld : World := ⟨["/etc/systemd/system", "/etc/systemd/system/web.service"], []⟩

/-- A manager holding only the scenario unit. -/
def webManager : UnitManager := ⟨[("web", webUnit)]⟩

/-- Python `s.startswith(pre)`. -/
def strStarts (pre s : String) : Bool := pre.data.isPrefixOf s.data

/-- The dict contribution of an `optLine` descriptor line: nothing when the
field is falsy, else the lower-cased key bound to the right-stripped value. -/
def optEntry (k : String) (o : Option String) : List (List Char × List Char) :=
  match o with
  | none => []
  | some s => if s = "" then [] else [(k.data, stripRightL s.data)]

/-- The dict contribution of a `cmdLine` descriptor line: any present command
object yields a binding (its string may strip to empty). -/
def cmdEntry (k : String) (o : Option Command) : List (List Char × List Char) :=
  match o with
  | none => []
  | some c => [(k.data, stripRightL c.command_str.data)]

/-- The dict contribution of one `Environment=K=V` line: the key is always
`environment`, the value everything after the first `=`. -/
def envEntry (kv : String × String) : List (List Char × List Char) :=
  [(("environment" : String).data, stripRightL (kv.1 ++ "=" ++ kv.2).data)]

/-- The insertion list `from_service_file` recovers from a generated
descriptor (established by `svcConfig_generate` below): one binding per
surviving line, in emission order. -/
def svcEntries (u : Unit) : List (List Char × List Char) :=
  [(("description" : String).data,
      stripRightL (if u.description = "" then u.name else u.description).data)]
  ++ (optEntry "after" u.after
  ++ (optEntry "requires" u.requires
  ++ ([(("type" : String).data, stripRightL (optShow u.service_type).data)]
  ++ (optEntry "workingdirectory" u.working_directory
  ++ (cmdEntry "execstart" u.exec_start
  ++ (cmdEntry "execstop" u.exec_stop
  ++ (optEntry "restart" u.restart
  ++ (optEntry "user" u.user
  ++ ((u.environment.map envEntry).flatten
  ++ [(("wantedby" : String).data, stripRightL u.wanted_by.data)])))))))))

/-- A unit exercising every descriptor field, used as round-trip witness. -/
def fullUnit : Unit :=
  Unit.init "db" "database service" (some (Command.initDefault "run start"))
    (some (Command.initDefault "run stop"))
    (some "/srv/db") (some "simple") (some "always") (some "root")
    (some [("PORT", "5432"), ("MODE", "fast")])
    "multi-user.target" (some "network.target") (some "a.service")
    false true "/etc/systemd/system"

/-- C2: `generate_service_file_data` is pure and deterministic in the unit's
descriptor fields: two units agreeing on every field the generator reads
(name, description, commands, directory, restart, user, environment,
wanted_by, after, requires, service_type) produce byte-identical text; in
particular two calls on one unchanged unit coincide. -/
theorem c2_generate_deterministic (u v : Unit)
    (h : u.name = v.name ∧ u.description = v.description
      ∧ u.exec_start = v.exec_start ∧ u.exec_stop = v.exec_stop
      ∧ u.working_directory = v.working_directory ∧ u.restart = v.restart
      ∧ u.user = v.user ∧ u.environment = v.environment
      ∧ u.wanted_by = v.wanted_by ∧ u.after = v.after
      ∧ u.requires = v.requires ∧ u.service_type = v.service_type) :
    u.generate_service_file_data = v.generate_service_file_data := by
  obtain ⟨h1, h2, h3, h4, h5, h6, h7, h8, h9, h10, h11, h12⟩ := h
  simp only [Unit.generate_service_file_data, Unit.serviceFileLines,
    h1, h2, h3, h4, h5, h6, h7, h8, h9, h10, h11, h12]

/-- Witness for C2 at the scenario unit. -/
theorem c2_generate_deterministic_witness :
    webUnit.generate_service_file_data = webUnit.generate_service_file_data :=
  c2_generate_deterministic webUnit webUnit
    ⟨rfl, rfl, rfl, rfl, rfl, rfl, rfl, rfl, rfl, rfl, rfl, rfl⟩

/-- C4 (amended): `load` raises `alreadyLoaded` iff the unit is loaded at call
time and `unload` raises `notLoaded` iff it is not, each with the world
unchanged (no write or delete issued); when not loaded, `load` issues the
descriptor write provided the install directory exists, and raises
`pathNotFound` (not a write) when it does not; when loaded, `unload` issues
the `rm` command. -/
theorem c4_load_unload_guards (u : Unit) (w : World) :
    (u.load w = .error (.alreadyLoaded, w) ↔ u.is_loaded w = true)
  ∧ (u.is_loaded w = false → path_exists w u.systemd_dir = true →
      u.load w = .ok (w.issue (u.writeCmd u.systemd_dir)))
  ∧ (u.is_loaded w = false → path_exists w u.systemd_dir = false →
      u.load w = .error (.pathNotFound, w))
  ∧ (u.unload w = .error (.notLoaded, w) ↔ u.is_loaded w = false)
  ∧ (u.is_loaded w = true → u.unload w = .ok (w.issue u.rmCmd)) := by
  by_cases hl : u.is_loaded w <;> by_cases hd : path_exists w u.systemd_dir <;>
    simp [Unit.load, Unit.unload, Unit.to_file, hl, hd]

/-- Witness for C4: a fresh install directory accepts the write; a loaded
descriptor accepts the delete. -/
theorem c4_load_unload_guards_witness :
    webUnit.load dirWorld = .ok (dirWorld.issue (webUnit.writeCmd webUnit.systemd_dir))
  ∧ webUnit.unload loadedWorld = .ok (loadedWorld.issue webUnit.rmCmd) :=
  ⟨(c4_load_unload_guards webUnit dirWorld).2.1 (by decide) (by decide),
   (c4_load_unload_guards webUnit loadedWorld).2.2.2.2 (by decide)⟩

/-- Counterexample to C4 as stated: in a world where the install directory is
missing, the unit is not loaded yet `load` does not write — it raises the
`pathNotFound` error, with no command issued. -/
theorem c4_counterexample :
    webUnit.is_loaded emptyWorld = false
  ∧ webUnit.load emptyWorld = .error (.pathNotFound, emptyWorld) := by decide

/-- C5: with dry-run off (so the query actually runs and returns a result),
`is_enabled` is true exactly when the trimmed stdout of the non-elevated
`systemctl is-enabled` query equals `"enabled"`, and `is_active` exactly when
the trimmed stdout of `systemctl is-active` equals `"active"`; every other
stdout — empty output and failed queries included — yields `false`.  Both
query commands are built non-elevated. -/
theorem c5_query_tokens (u : Unit) (shell : String → ExecResult) (h : u.dry_run = false) :
    u.is_enabled shell =
      .ok (pyStrip (shell ("systemctl is-enabled " ++ u.service_file_name)).stdout == "enabled")
  ∧ u.is_active shell =
      .ok (pyStrip (shell ("systemctl is-active " ++ u.service_file_name)).stdout == "active")
  ∧ u.isEnabledCmd.sudo_ = false ∧ u.isActiveCmd.sudo_ = false := by
  simp [Unit.is_enabled, Unit.is_active, Unit.isEnabledCmd, Unit.isActiveCmd,
    Command.execute, CommandEngine.run, Command.init, h]

/-- Witness for C5 at the scenario unit with dry-run off. -/
theorem c5_query_tokens_witness :
    webUnitReal.is_enabled shellEnabled =
      .ok (pyStrip (shellEnabled ("systemctl is-enabled " ++ webUnitReal.service_file_name)).stdout == "enabled")
  ∧ webUnitReal.is_active shellEnabled =
      .ok (pyStrip (shellEnabled ("systemctl is-active " ++ webUnitReal.service_file_name)).stdout == "active")
  ∧ webUnitReal.isEnabledCmd.sudo_ = false ∧ webUnitReal.isActiveCmd.sudo_ = false :=
  c5_query_tokens webUnitReal shellEnabled rfl

/-- C6: for a name bound by no registry entry, `get` returns `none` without
raising while every per-name lifecycle operation raises `unitNotFound` with
the world untouched; for a registered name each operation delegates to the
corresponding `Unit` method on the current world, propagating its outcome
unchanged. -/
theorem c6_manager_lookup (m : UnitManager) (name : String) (w : World) :
    ((∀ p ∈ m.units, p.1 ≠ name) →
        m.get name = none
      ∧ m.start_service name w = .error (.unitNotFound, w)
      ∧ m.stop_service name w = .error (.unitNotFound, w)
      ∧ m.enable_service name w = .error (.unitNotFound, w)
      ∧ m.disable_service name w = .error (.unitNotFound, w)
      ∧ m.load_service name w = .error (.unitNotFound, w)
      ∧ m.unload_service name w = .error (.unitNotFound, w)
      ∧ m.reload_service name w = .error (.unitNotFound, w)
      ∧ m.restart_service name w = .error (.unitNotFound, w))
  ∧ (∀ u : Unit, m.get name = some u →
        m.start_service name w = u.start w
      ∧ m.stop_service name w = .ok (u.stop w)
      ∧ m.enable_service name w = .ok (u.enable w)
      ∧ m.disable_service name w = .ok (u.disable w)
      ∧ m.load_service name w = u.load w
      ∧ m.unload_service name w = u.unload w
      ∧ m.reload_service name w = u.reload_unit w
      ∧ m.restart_service name w = .ok (u.restart_unit w)) := by
  constructor
  · intro h
    have hget : m.get name = none := by
      have hfind : m.units.reverse.find? (fun p => p.1 == name) = none :=
        List.find?_eq_none.2 (by
          intro x hx
          rw [List.mem_reverse] at hx
          simpa using h x hx)
      simp [UnitManager.get, hfind]
    exact ⟨hget, by simp [UnitManager.start_service, hget],
      by simp [UnitManager.stop_service, hget],
      by simp [UnitManager.enable_service, hget],
      by simp [UnitManager.disable_service, hget],
      by simp [UnitManager.load_service, hget],
      by simp [UnitManager.unload_service, hget],
      by simp [UnitManager.reload_service, hget],
      by simp [UnitManager.restart_service, hget]⟩
  · intro u hu
    exact ⟨by simp [UnitManager.start_service, hu],
      by simp [UnitManager.stop_service, hu],
      by simp [UnitManager.enable_service, hu],
      by simp [UnitManager.disable_service, hu],
      by simp [UnitManager.load_service, hu],
      by simp [UnitManager.unload_service, hu],
      by simp [UnitManager.reload_service, hu],
      by simp [UnitManager.restart_service, hu]⟩

/-- Witness for C6 at a one-unit manager and an unregistered name. -/
theorem c6_manager_lookup_witness :
    webManager.get "ghost" = none
  ∧ webManager.start_service "ghost" emptyWorld = .error (.unitNotFound, emptyWorld)
  ∧ webManager.stop_service "ghost" emptyWorld = .error (.unitNotFound, emptyWorld)
  ∧ webManager.enable_service "ghost" emptyWorld = .error (.unitNotFound, emptyWorld)
  ∧ webManager.disable_service "ghost" emptyWorld = .error (.unitNotFound, emptyWorld)
  ∧ webManager.load_service "ghost" emptyWorld = .error (.unitNotFound, emptyWorld)
  ∧ webManager.unload_service "ghost" emptyWorld = .error (.unitNotFound, emptyWorld)
  ∧ webManager.reload_service "ghost" emptyWorld = .error (.unitNotFound, emptyWorld)
  ∧ webManager.restart_service "ghost" emptyWorld = .error (.unitNotFound, emptyWorld) :=
  (c6_manager_lookup webManager "ghost" emptyWorld).1 (by decide)

/-- C7: the spec scenario — the generated descriptor of the `web` unit
contains the four required lines and no `Restart=` or `User=` line. -/
theorem c7_web_scenario :
    "ExecStart=echo start" ∈ linesOf webUnit.generate_service_file_data
  ∧ "ExecStop=echo stop" ∈ linesOf webUnit.generate_service_file_data
  ∧ "Environment=PORT=8080" ∈ linesOf webUnit.generate_service_file_data
  ∧ "WantedBy=multi-user.target" ∈ linesOf webUnit.generate_service_file_data
  ∧ ∀ l ∈ linesOf webUnit.generate_service_file_data,
      strStarts "Restart=" l = false ∧ strStarts "User=" l = false := by decide

/-- C8 (amended): `setup` performs `load` only when the unit is not loaded and
can never raise `alreadyLoaded`; it issues the daemon-reload command provided
the load step did not fail (always when already loaded, and when the install
directory exists otherwise — a failing `load` propagates before the daemon
reload).  `start` runs `setup` and, when it succeeds, issues the elevated
start command; a `setup` failure propagates unchanged. -/
theorem c8_setup_start (u : Unit) (w : World) :
    (u.is_loaded w = true → u.setup w = .ok (u.reload_daemon w))
  ∧ (u.is_loaded w = false → path_exists w u.systemd_dir = true →
      u.setup w = .ok (u.reload_daemon (w.issue (u.writeCmd u.systemd_dir))))
  ∧ (∀ w1 : World, u.setup w ≠ .error (.alreadyLoaded, w1))
  ∧ (∀ w1 : World, u.setup w = .ok w1 → u.start w = .ok (w1.issue u.startCmd))
  ∧ (∀ e, u.setup w = .error e → u.start w = .error e) := by
  by_cases hl : u.is_loaded w <;> by_cases hd : path_exists w u.systemd_dir <;>
    simp [Unit.setup, Unit.start, Unit.load, Unit.to_file, hl, hd]

/-- Witness for C8: fresh directory world — `setup` writes then reloads the
daemon, and `start` appends the start command to that. -/
theorem c8_setup_start_witness :
    webUnit.setup dirWorld =
      .ok (webUnit.reload_daemon (dirWorld.issue (webUnit.writeCmd webUnit.systemd_dir)))
  ∧ webUnit.start dirWorld =
      .ok ((webUnit.reload_daemon (dirWorld.issue (webUnit.writeCmd webUnit.systemd_dir))).issue
        webUnit.startCmd) := by
  have h1 := (c8_setup_start webUnit dirWorld).2.1 (by decide) (by decide)
  exact ⟨h1, (c8_setup_start webUnit dirWorld).2.2.2.1 _ h1⟩

/-- Counterexample to C8 as stated: with the install directory missing,
`setup` raises `pathNotFound` and the daemon-reload command is never issued
(the returned world still has an empty trace). -/
theorem c8_counterexample :
    webUnit.is_loaded emptyWorld = false
  ∧ webUnit.setup emptyWorld = .error (.pathNotFound, emptyWorld) := by decide

/-- C9 (amended): `from_dict` forwards the record's `"type"` value verbatim,
so a record without a `"type"` key yields `service_type = None`; the
`"oneshot"` default applies only to direct construction without passing
`service_type`. -/
theorem c9_from_dict_type_unset (config : Config) (verbose dry_run : Bool)
    (systemd_dir : String) (h : config.type_ = none) :
    (Unit.from_dict config verbose dry_run systemd_dir).service_type = none := by
  simp [Unit.from_dict, Unit.init, h]

/-- Witness for C9 at the name-only record. -/
theorem c9_from_dict_type_unset_witness :
    (Unit.from_dict cfgNameOnly defaultVerbose defaultDryRun defaultSystemdDir).service_type = none :=
  c9_from_dict_type_unset cfgNameOnly defaultVerbose defaultDryRun defaultSystemdDir rfl

/-- Counterexample to C9 as stated: the unit built from a record with no
`"type"` key has `service_type = None`, not the constructor default
`"oneshot"`. -/
theorem c9_counterexample :
    (Unit.from_dict cfgNameOnly defaultVerbose defaultDryRun defaultSystemdDir).service_type = none
  ∧ (Unit.from_dict cfgNameOnly defaultVerbose defaultDryRun defaultSystemdDir).service_type
      ≠ defaultServiceType := by decide

/-- C10: with `dry_run` left at its constructor default `True`, the engine
returns `None` instead of a result object, and both `is_enabled` and
`is_active` raise the `AttributeError` from dereferencing `res.stdout` —
no boolean is ever returned. -/
theorem c10_dry_run_queries_raise (u : Unit) (shell : String → ExecResult)
    (h : u.dry_run = defaultDryRun) :
    u.is_enabled shell = .error attrErrNone
  ∧ u.is_active shell = .error attrErrNone := by
  simp [defaultDryRun] at h
  simp [Unit.is_enabled, Unit.is_active, Unit.isEnabledCmd, Unit.isActiveCmd,
    Command.execute, CommandEngine.run, Command.init, h]

/-- Witness for C10 at the scenario unit (constructed with the defaults). -/
theorem c10_dry_run_queries_raise_witness :
    webUnit.is_enabled shellEnabled = .error attrErrNone
  ∧ webUnit.is_active shellEnabled = .error attrErrNone :=
  c10_dry_run_queries_raise webUnit shellEnabled rfl

/-- String concatenation concatenates the character lists. -/
theorem data_append (a b : String) : (a ++ b).data = a.data ++ b.data := rfl

/-- `dropWhile` across an append stops inside the left part iff something
there survives. -/
theorem dropWhile_append_eq {p : Char → Bool} (l1 l2 : List Char) :
    (l1 ++ l2).dropWhile p =
      if (l1.dropWhile p).isEmpty then l2.dropWhile p else l1.dropWhile p ++ l2 := by
  induction l1 with
  | nil => simp
  | cons a l1 ih =>
    by_cases ha : p a
    · simpa [List.dropWhile_cons, ha] using ih
    · simp [List.dropWhile_cons, ha]

/-- Right-stripping stops at a non-whitespace separator character. -/
theorem stripRightL_append_cons (a : List Char) (c : Char) (b : List Char)
    (hc : isPyWS c = false) :
    stripRightL (a ++ c :: b) = a ++ c :: stripRightL b := by
  unfold stripRightL
  rw [List.reverse_append, List.reverse_cons, List.append_assoc, dropWhile_append_eq]
  by_cases hb : (b.reverse.dropWhile isPyWS).isEmpty
  · rw [if_pos hb]
    have hbnil : b.reverse.dropWhile isPyWS = [] := by simpa using hb
    rw [List.singleton_append, List.dropWhile_cons, if_neg (by simp [hc]), hbnil]
    simp
  · rw [if_neg hb]
    simp [List.reverse_append, List.append_assoc]

/-- `takeWhile` across an append with an all-true left part and a failing
separator returns exactly the left part. -/
theorem takeWhile_append_stop {p : Char → Bool} (k : List Char) (c : Char) (r : List Char)
    (hk : ∀ x ∈ k, p x = true) (hc : p c = false) :
    (k ++ c :: r).takeWhile p = k := by
  induction k with
  | nil => simp [List.takeWhile_cons, hc]
  | cons a k ih =>
    have ha := hk a (by simp)
    simp [List.takeWhile_cons, ha, ih fun x hx => hk x (by simp [hx])]

/-- `dropWhile` companion of `takeWhile_append_stop`. -/
theorem dropWhile_append_stop {p : Char → Bool} (k : List Char) (c : Char) (r : List Char)
    (hk : ∀ x ∈ k, p x = true) (hc : p c = false) :
    (k ++ c :: r).dropWhile p = c :: r := by
  induction k with
  | nil => simp [List.dropWhile_cons, hc]
  | cons a k ih =>
    have ha := hk a (by simp)
    simp [List.dropWhile_cons, ha, ih fun x hx => hk x (by simp [hx])]

/-- An empty line contributes no binding. -/
theorem lineEntries_nil : lineEntries [] = [] := rfl

/-- The binding contributed by a well-formed `key=value` line: a nonempty key
of non-whitespace, non-`=` characters not led by `#` parses into its
lower-cased form bound to the right-stripped value. -/
theorem lineEntries_keyval (k v : List Char)
    (hne : k ≠ []) (hch : ∀ c ∈ k, isPyWS c = false ∧ c ≠ '=')
    (hh : k.head? ≠ some '#') :
    lineEntries (k ++ '=' :: v) = [(lowerL k, stripRightL v)] := by
  obtain ⟨x, k1, rfl⟩ : ∃ x k1, k = x :: k1 := by
    cases k with
    | nil => exact absurd rfl hne
    | cons x k1 => exact ⟨x, k1, rfl⟩
  have hx := hch x (by simp)
  have hstripL : stripLeftL ((x :: k1) ++ '=' :: v) = (x :: k1) ++ '=' :: v := by
    simp [stripLeftL, List.dropWhile_cons, hx.1]
  have hstripR : stripRightL ((x :: k1) ++ '=' :: v) = (x :: k1) ++ '=' :: stripRightL v :=
    stripRightL_append_cons _ _ _ (by decide)
  have hstrip : pyStripL ((x :: k1) ++ '=' :: v) = (x :: k1) ++ '=' :: stripRightL v := by
    rw [pyStripL, hstripL, hstripR]
  have hmem : '=' ∈ (x :: k1) ++ '=' :: v := by simp
  have hhead : (pyStripL ((x :: k1) ++ '=' :: v)).head? ≠ some '#' := by
    rw [hstrip]
    simpa using hh
  rw [lineEntries, if_pos ⟨hmem, hhead⟩, hstrip]
  have hkey : keyOfL ((x :: k1) ++ '=' :: stripRightL v) = x :: k1 :=
    takeWhile_append_stop _ _ _
      (fun y hy => by simpa using (hch y hy).2) (by simp)
  have hval : valOfL ((x :: k1) ++ '=' :: stripRightL v) = stripRightL v := by
    rw [valOfL, dropWhile_append_stop _ _ _
      (fun y hy => by simpa using (hch y hy).2) (by simp)]
    rfl
  rw [hkey, hval]

/-- `lineEntries_keyval` lifted to the string concatenation used by the
generator. -/
theorem lineEntries_keyString (key s : String)
    (hne : key.data ≠ []) (hch : ∀ c ∈ key.data, isPyWS c = false ∧ c ≠ '=')
    (hh : key.data.head? ≠ some '#') :
    lineEntries (key ++ "=" ++ s).data = [(lowerL key.data, stripRightL s.data)] := by
  have heq : ("=" : String).data = ['='] := rfl
  have hdata : (key ++ "=" ++ s).data = key.data ++ '=' :: s.data := by
    rw [data_append, data_append, heq, List.append_assoc, List.singleton_append]
  rw [hdata]
  exact lineEntries_keyval key.data s.data hne hch hh

/-- An `optLine` parses back to its `optEntry`. -/
theorem lineEntries_optLine (key lkey : String) (o : Option String)
    (hne : key.data ≠ []) (hch : ∀ c ∈ key.data, isPyWS c = false ∧ c ≠ '=')
    (hh : key.data.head? ≠ some '#') (hlow : lowerL key.data = lkey.data) :
    lineEntries (optLine key o).data = optEntry lkey o := by
  cases o with
  | none => rfl
  | some s =>
    by_cases hs : s = ""
    · simp [optLine, optEntry, hs, lineEntries_nil]
    · rw [optLine, optEntry, if_neg hs, if_neg hs,
        lineEntries_keyString key s hne hch hh, hlow]

/-- A `cmdLine` parses back to its `cmdEntry`. -/
theorem lineEntries_cmdLine (key lkey : String) (o : Option Command)
    (hne : key.data ≠ []) (hch : ∀ c ∈ key.data, isPyWS c = false ∧ c ≠ '=')
    (hh : key.data.head? ≠ some '#') (hlow : lowerL key.data = lkey.data) :
    lineEntries (cmdLine key o).data = cmdEntry lkey o := by
  cases o with
  | none => rfl
  | some c =>
    rw [cmdLine, cmdEntry, lineEntries_keyString key c.command_str hne hch hh, hlow]

/-- An `envLine` parses back to its `envEntry`: the key is always
`environment`, the value everything after the first `=`. -/
theorem lineEntries_envLine (kv : String × String) :
    lineEntries (envLine kv).data = envEntry kv := by
  rw [envLine, envEntry]
  have hdata : ("Environment=" ++ kv.1 ++ "=" ++ kv.2 : String)
      = ("Environment" : String) ++ "=" ++ (kv.1 ++ "=" ++ kv.2) := by
    have : ∀ x y : String, x ++ y = ⟨x.data ++ y.data⟩ := fun x y => rfl
    rw [this, this, this, this, this, this]
    simp [List.append_assoc]
  rw [hdata, lineEntries_keyString "Environment" (kv.1 ++ "=" ++ kv.2)
    (by decide) (by decide) (by decide)]
  rfl

/-- Splitting the joined descriptor text recovers exactly the newline-free
joined lines. -/
theorem linesOf_joinLines (ls : List String) (h : ∀ s ∈ ls, '\n' ∉ s.data) (hne : ls ≠ []) :
    linesOf (joinLines ls) = ls := by
  unfold linesOf joinLines
  rw [show (String.mk (List.intercalate ['\n'] (ls.map String.data))).data
      = ['\n'].intercalate (ls.map String.data) from rfl]
  rw [List.splitOn_intercalate]
  · rw [List.map_map]
    have hid : ∀ s ∈ ls, ((fun l => (⟨l⟩ : String)) ∘ String.data) s = id s := fun s _ => rfl
    rw [List.map_congr_left hid, List.map_id]
  · intro l hl
    obtain ⟨s, hs, rfl⟩ := List.mem_map.1 hl
    exact h s hs
  · simpa using hne

/-- Pre-filtering the falsy lines does not change the parsed bindings, since
an empty line contributes none. -/
theorem flatten_map_filter (L : List String) :
    ((L.filter fun s => s ≠ "").map fun l => lineEntries l.data).flatten
      = (L.map fun l => lineEntries l.data).flatten := by
  induction L with
  | nil => rfl
  | cons a L ih =>
    rw [List.filter_cons]
    by_cases ha : a = ""
    · subst ha
      rw [if_neg (by simp)]
      rw [ih]
      have hmt : lineEntries ("" : String).data = [] := rfl
      simp [hmt]
    · rw [if_pos (by simpa using ha)]
      simp only [List.map_cons, List.flatten_cons, ih]

/-- `optLine` never introduces a newline when its fragments are newline-free. -/
theorem optLine_noNL (key : String) (o : Option String)
    (hk : '\n' ∉ key.data) (ho : '\n' ∉ (optShow o).data) :
    '\n' ∉ (optLine key o).data := by
  cases o with
  | none => simp [optLine]
  | some s =>
    by_cases hs : s = ""
    · simp [optLine, hs]
    · rw [optLine, if_neg hs, data_append, data_append]
      simp only [List.mem_append, not_or]
      exact ⟨⟨hk, by decide⟩, ho⟩

/-- `cmdLine` never introduces a newline when its fragments are newline-free. -/
theorem cmdLine_noNL (key : String) (o : Option Command)
    (hk : '\n' ∉ key.data) (ho : '\n' ∉ (cmdShow o).data) :
    '\n' ∉ (cmdLine key o).data := by
  cases o with
  | none => simp [cmdLine]
  | some c =>
    rw [cmdLine, data_append, data_append]
    simp only [List.mem_append, not_or]
    exact ⟨⟨hk, by decide⟩, ho⟩

/-- Every generated descriptor line of a newline-free unit is newline-free. -/
theorem serviceFileLines_noNL (u : Unit) (h : UnitNoNLb u = true) :
    ∀ s ∈ u.serviceFileLines, '\n' ∉ s.data := by
  simp only [UnitNoNLb, Bool.and_eq_true, List.all_eq_true, noNLb,
    decide_eq_true_eq, and_assoc] at h
  obtain ⟨hname, hdesc, hafter, hreq, htype, hwd, hes, hex, hres, husr, hwb, henv⟩ := h
  intro s hs
  simp only [Unit.serviceFileLines, List.mem_append, List.mem_cons,
    List.not_mem_nil, or_false, List.mem_map, or_assoc] at hs
  rcases hs with rfl | rfl | rfl | rfl | rfl | rfl | rfl | rfl | rfl | rfl | rfl | rfl
    | ⟨kv, hkv, rfl⟩ | rfl | rfl | rfl
  · decide
  · rw [data_append]
    simp only [List.mem_append, not_or]
    refine ⟨by decide, ?_⟩
    by_cases hd : u.description = ""
    · rw [if_pos hd]; exact hname
    · rw [if_neg hd]; exact hdesc
  · exact optLine_noNL _ _ (by decide) hafter
  · exact optLine_noNL _ _ (by decide) hreq
  · decide
  · decide
  · rw [data_append]
    simp only [List.mem_append, not_or]
    exact ⟨by decide, htype⟩
  · exact optLine_noNL _ _ (by decide) hwd
  · exact cmdLine_noNL _ _ (by decide) hes
  · exact cmdLine_noNL _ _ (by decide) hex
  · exact optLine_noNL _ _ (by decide) hres
  · exact optLine_noNL _ _ (by decide) husr
  · obtain ⟨hk1, hk2⟩ := henv kv hkv
    rw [envLine, data_append, data_append, data_append]
    simp only [List.mem_append, not_or]
    exact ⟨⟨⟨by decide, hk1⟩, by decide⟩, hk2⟩
  · decide
  · decide
  · rw [data_append]
    simp only [List.mem_append, not_or]
    exact ⟨by decide, hwb⟩

/-- Parsing the generated descriptor of a newline-free unit yields exactly
the canonical insertion list. -/
theorem svcConfig_generate (u : Unit) (h : UnitNoNLb u = true) :
    svcConfig u.generate_service_file_data = svcEntries u := by
  have hlines : linesOf u.generate_service_file_data
      = u.serviceFileLines.filter fun s => s ≠ "" := by
    unfold Unit.generate_service_file_data
    apply linesOf_joinLines
    · intro s hs
      exact serviceFileLines_noNL u h s (List.mem_of_mem_filter hs)
    · have hmem : ("[Unit]" : String) ∈ u.serviceFileLines.filter fun s => s ≠ "" :=
        List.mem_filter.2 ⟨by simp [Unit.serviceFileLines], by decide⟩
      exact List.ne_nil_of_mem hmem
  have hdesc : lineEntries ("Description="
        ++ (if u.description = "" then u.name else u.description)).data
      = [(("description" : String).data,
          stripRightL (if u.description = "" then u.name else u.description).data)] := by
    have h1 : ("Description=" ++ (if u.description = "" then u.name else u.description)).data
        = ("Description" : String).data
          ++ '=' :: (if u.description = "" then u.name else u.description).data := by
      rw [data_append]
      have h2 : ("Description=" : String).data = ("Description" : String).data ++ ['='] := by decide
      rw [h2, List.append_assoc, List.singleton_append]
    rw [h1, lineEntries_keyval _ _ (by decide) (by decide) (by decide)]
    have h3 : lowerL ("Description" : String).data = ("description" : String).data := by decide
    rw [h3]
  have htype : lineEntries ("Type=" ++ optShow u.service_type).data
      = [(("type" : String).data, stripRightL (optShow u.service_type).data)] := by
    have h1 : ("Type=" ++ optShow u.service_type).data
        = ("Type" : String).data ++ '=' :: (optShow u.service_type).data := by
      rw [data_append]
      have h2 : ("Type=" : String).data = ("Type" : String).data ++ ['='] := by decide
      rw [h2, List.append_assoc, List.singleton_append]
    rw [h1, lineEntries_keyval _ _ (by decide) (by decide) (by decide)]
    have h3 : lowerL ("Type" : String).data = ("type" : String).data := by decide
    rw [h3]
  have hwb : lineEntries ("WantedBy=" ++ u.wanted_by).data
      = [(("wantedby" : String).data, stripRightL u.wanted_by.data)] := by
    have h1 : ("WantedBy=" ++ u.wanted_by).data
        = ("WantedBy" : String).data ++ '=' :: u.wanted_by.data := by
      rw [data_append]
      have h2 : ("WantedBy=" : String).data = ("WantedBy" : String).data ++ ['='] := by decide
      rw [h2, List.append_assoc, List.singleton_append]
    rw [h1, lineEntries_keyval _ _ (by decide) (by decide) (by decide)]
    have h3 : lowerL ("WantedBy" : String).data = ("wantedby" : String).data := by decide
    rw [h3]
  have hafter := lineEntries_optLine "After" "after" u.after
    (by decide) (by decide) (by decide) (by decide)
  have hreq := lineEntries_optLine "Requires" "requires" u.requires
    (by decide) (by decide) (by decide) (by decide)
  have hwd := lineEntries_optLine "WorkingDirectory" "workingdirectory" u.working_directory
    (by decide) (by decide) (by decide) (by decide)
  have hres := lineEntries_optLine "Restart" "restart" u.restart
    (by decide) (by decide) (by decide) (by decide)
  have husr := lineEntries_optLine "User" "user" u.user
    (by decide) (by decide) (by decide) (by decide)
  have hes := lineEntries_cmdLine "ExecStart" "execstart" u.exec_start
    (by decide) (by decide) (by decide) (by decide)
  have hex := lineEntries_cmdLine "ExecStop" "execstop" u.exec_stop
    (by decide) (by decide) (by decide) (by decide)
  have hemp : lineEntries ("" : String).data = [] := rfl
  have hu1 : lineEntries ("[Unit]" : String).data = [] := rfl
  have hu2 : lineEntries ("[Service]" : String).data = [] := rfl
  have hu3 : lineEntries ("[Install]" : String).data = [] := rfl
  have henv : u.environment.map (fun kv => lineEntries (envLine kv).data)
      = u.environment.map envEntry :=
    List.map_congr_left fun kv _ => lineEntries_envLine kv
  unfold svcConfig
  rw [hlines, flatten_map_filter]
  unfold Unit.serviceFileLines
  simp only [List.map_append, List.flatten_append, List.map_cons, List.flatten_cons,
    List.map_nil, List.flatten_nil, List.map_map, Function.comp_def]
  rw [hdesc, htype, hwb, hafter, hreq, hwd, hres, husr, hes, hex, hemp, hu1, hu2, hu3, henv]
  simp [svcEntries, List.append_assoc]

/-- Reading the last binding distributes over append as an `Option.or`. -/
theorem cfgGet_append (c1 c2 : List (List Char × List Char)) (k : String) :
    cfgGet (c1 ++ c2) k = (cfgGet c2 k).or (cfgGet c1 k) := by
  unfold cfgGet
  rw [List.reverse_append, List.find?_append]
  cases c2.reverse.find? fun p => p.1 == k.data <;> simp

/-- A singleton binding under its own key. -/
theorem cfgGet_single_self (kd v : List Char) (k : String) (h : kd = k.data) :
    cfgGet [(kd, v)] k = some (⟨v⟩ : String) := by
  subst h
  simp [cfgGet]

/-- A singleton binding under a different key. -/
theorem cfgGet_single_ne (kd v : List Char) (k : String) (h : ¬kd = k.data) :
    cfgGet [(kd, v)] k = none := by
  simp [cfgGet, h]

/-- Reading an `optEntry` block under its own key. -/
theorem cfgGet_optEntry_self (k : String) (o : Option String) :
    cfgGet (optEntry k o) k
      = o.bind fun s => if s = "" then none else some (⟨stripRightL s.data⟩ : String) := by
  cases o with
  | none => rfl
  | some s =>
    have hr : (some s).bind
        (fun s => if s = "" then none else some (⟨stripRightL s.data⟩ : String))
        = if s = "" then none else some (⟨stripRightL s.data⟩ : String) := rfl
    by_cases hs : s = ""
    · rw [optEntry, if_pos hs, hr, if_pos hs]
      rfl
    · rw [optEntry, if_neg hs, hr, if_neg hs]
      exact cfgGet_single_self _ _ _ rfl

/-- Reading an `optEntry` block under a different key. -/
theorem cfgGet_optEntry_ne (k : String) (o : Option String) (q : String)
    (h : ¬k.data = q.data) :
    cfgGet (optEntry k o) q = none := by
  cases o with
  | none => rfl
  | some s =>
    by_cases hs : s = ""
    · rw [optEntry, if_pos hs]
      rfl
    · rw [optEntry, if_neg hs]
      exact cfgGet_single_ne _ _ _ h

/-- Reading a `cmdEntry` block under its own key. -/
theorem cfgGet_cmdEntry_self (k : String) (o : Option Command) :
    cfgGet (cmdEntry k o) k
      = o.map fun c => (⟨stripRightL c.command_str.data⟩ : String) := by
  cases o with
  | none => rfl
  | some c =>
    rw [cmdEntry]
    exact cfgGet_single_self _ _ _ rfl

/-- Reading a `cmdEntry` block under a different key. -/
theorem cfgGet_cmdEntry_ne (k : String) (o : Option Command) (q : String)
    (h : ¬k.data = q.data) :
    cfgGet (cmdEntry k o) q = none := by
  cases o with
  | none => rfl
  | some c =>
    rw [cmdEntry]
    exact cfgGet_single_ne _ _ _ h

/-- Every environment line binds the key `environment`, so the block is
transparent to any other key. -/
theorem cfgGet_envFlat_ne (env : List (String × String)) (q : String)
    (h : ¬("environment" : String).data = q.data) :
    cfgGet (env.map envEntry).flatten q = none := by
  unfold cfgGet
  have hfind : ((env.map envEntry).flatten.reverse.find? fun p => p.1 == q.data) = none := by
    rw [List.find?_eq_none]
    intro p hp
    rw [List.mem_reverse, List.mem_flatten] at hp
    obtain ⟨l, hl, hpl⟩ := hp
    obtain ⟨kv, _, rfl⟩ := List.mem_map.1 hl
    rw [envEntry, List.mem_singleton] at hpl
    subst hpl
    simpa using h
  rw [hfind]
  rfl

/-- The `execstart` binding recovered from a generated descriptor. -/
theorem cfgGet_entries_execstart (u : Unit) :
    cfgGet (svcEntries u) "execstart"
      = u.exec_start.map fun c => (⟨stripRightL c.command_str.data⟩ : String) := by
  unfold svcEntries
  simp only [cfgGet_append]
  rw [cfgGet_single_ne (("description" : String).data) _ "execstart" (by decide),
      cfgGet_single_ne (("type" : String).data) _ "execstart" (by decide),
      cfgGet_optEntry_ne "after" u.after "execstart" (by decide),
      cfgGet_optEntry_ne "requires" u.requires "execstart" (by decide),
      cfgGet_envFlat_ne u.environment "execstart" (by decide)]
  rw [cfgGet_single_ne (("wantedby" : String).data) _ "execstart" (by decide),
      cfgGet_optEntry_ne "workingdirectory" u.working_directory "execstart" (by decide),
      cfgGet_optEntry_ne "restart" u.restart "execstart" (by decide),
      cfgGet_optEntry_ne "user" u.user "execstart" (by decide),
      cfgGet_cmdEntry_ne "execstop" u.exec_stop "execstart" (by decide),
      cfgGet_cmdEntry_self "execstart" u.exec_start]
  cases u.exec_start <;> simp

/-- The `execstop` binding recovered from a generated descriptor. -/
theorem cfgGet_entries_execstop (u : Unit) :
    cfgGet (svcEntries u) "execstop"
      = u.exec_stop.map fun c => (⟨stripRightL c.command_str.data⟩ : String) := by
  unfold svcEntries
  simp only [cfgGet_append]
  rw [cfgGet_single_ne (("description" : String).data) _ "execstop" (by decide),
      cfgGet_single_ne (("type" : String).data) _ "execstop" (by decide),
      cfgGet_optEntry_ne "after" u.after "execstop" (by decide),
      cfgGet_optEntry_ne "requires" u.requires "execstop" (by decide),
      cfgGet_envFlat_ne u.environment "execstop" (by decide)]
  rw [cfgGet_single_ne (("wantedby" : String).data) _ "execstop" (by decide),
      cfgGet_optEntry_ne "workingdirectory" u.working_directory "execstop" (by decide),
      cfgGet_optEntry_ne "restart" u.restart "execstop" (by decide),
      cfgGet_optEntry_ne "user" u.user "execstop" (by decide),
      cfgGet_cmdEntry_ne "execstart" u.exec_start "execstop" (by decide),
      cfgGet_cmdEntry_self "execstop" u.exec_stop]
  cases u.exec_stop <;> simp

/-- The `workingdirectory` binding recovered from a generated descriptor. -/
theorem cfgGet_entries_workingdirectory (u : Unit) :
    cfgGet (svcEntries u) "workingdirectory"
      = u.working_directory.bind fun s =>
          if s = "" then none else some (⟨stripRightL s.data⟩ : String) := by
  unfold svcEntries
  simp only [cfgGet_append]
  rw [cfgGet_single_ne (("description" : String).data) _ "workingdirectory" (by decide),
      cfgGet_single_ne (("type" : String).data) _ "workingdirectory" (by decide),
      cfgGet_optEntry_ne "after" u.after "workingdirectory" (by decide),
      cfgGet_optEntry_ne "requires" u.requires "workingdirectory" (by decide),
      cfgGet_envFlat_ne u.environment "workingdirectory" (by decide)]
  rw [cfgGet_single_ne (("wantedby" : String).data) _ "workingdirectory" (by decide),
      cfgGet_optEntry_ne "restart" u.restart "workingdirectory" (by decide),
      cfgGet_optEntry_ne "user" u.user "workingdirectory" (by decide),
      cfgGet_cmdEntry_ne "execstart" u.exec_start "workingdirectory" (by decide),
      cfgGet_cmdEntry_ne "execstop" u.exec_stop "workingdirectory" (by decide),
      cfgGet_optEntry_self "workingdirectory" u.working_directory]
  cases u.working_directory <;> simp

/-- The `restart` binding recovered from a generated descriptor. -/
theorem cfgGet_entries_restart (u : Unit) :
    cfgGet (svcEntries u) "restart"
      = u.restart.bind fun s =>
          if s = "" then none else some (⟨stripRightL s.data⟩ : String) := by
  unfold svcEntries
  simp only [cfgGet_append]
  rw [cfgGet_single_ne (("description" : String).data) _ "restart" (by decide),
      cfgGet_single_ne (("type" : String).data) _ "restart" (by decide),
      cfgGet_optEntry_ne "after" u.after "restart" (by decide),
      cfgGet_optEntry_ne "requires" u.requires "restart" (by decide),
      cfgGet_envFlat_ne u.environment "restart" (by decide)]
  rw [cfgGet_single_ne (("wantedby" : String).data) _ "restart" (by decide),
      cfgGet_optEntry_ne "workingdirectory" u.working_directory "restart" (by decide),
      cfgGet_optEntry_ne "user" u.user "restart" (by decide),
      cfgGet_cmdEntry_ne "execstart" u.exec_start "restart" (by decide),
      cfgGet_cmdEntry_ne "execstop" u.exec_stop "restart" (by decide),
      cfgGet_optEntry_self "restart" u.restart]
  cases u.restart <;> simp

/-- The `user` binding recovered from a generated descriptor. -/
theorem cfgGet_entries_user (u : Unit) :
    cfgGet (svcEntries u) "user"
      = u.user.bind fun s =>
          if s = "" then none else some (⟨stripRightL s.data⟩ : String) := by
  unfold svcEntries
  simp only [cfgGet_append]
  rw [cfgGet_single_ne (("description" : String).data) _ "user" (by decide),
      cfgGet_single_ne (("type" : String).data) _ "user" (by decide),
      cfgGet_optEntry_ne "after" u.after "user" (by decide),
      cfgGet_optEntry_ne "requires" u.requires "user" (by decide),
      cfgGet_envFlat_ne u.environment "user" (by decide)]
  rw [cfgGet_single_ne (("wantedby" : String).data) _ "user" (by decide),
      cfgGet_optEntry_ne "workingdirectory" u.working_directory "user" (by decide),
      cfgGet_optEntry_ne "restart" u.restart "user" (by decide),
      cfgGet_cmdEntry_ne "execstart" u.exec_start "user" (by decide),
      cfgGet_cmdEntry_ne "execstop" u.exec_stop "user" (by decide),
      cfgGet_optEntry_self "user" u.user]
  cases u.user <;> simp

/-- The `wantedby` binding recovered from a generated descriptor. -/
theorem cfgGet_entries_wantedby (u : Unit) :
    cfgGet (svcEntries u) "wantedby"
      = some (⟨stripRightL u.wanted_by.data⟩ : String) := by
  unfold svcEntries
  simp only [cfgGet_append]
  rw [cfgGet_single_ne (("description" : String).data) _ "wantedby" (by decide),
      cfgGet_single_ne (("type" : String).data) _ "wantedby" (by decide),
      cfgGet_optEntry_ne "after" u.after "wantedby" (by decide),
      cfgGet_optEntry_ne "requires" u.requires "wantedby" (by decide),
      cfgGet_envFlat_ne u.environment "wantedby" (by decide)]
  rw [cfgGet_optEntry_ne "workingdirectory" u.working_directory "wantedby" (by decide),
      cfgGet_optEntry_ne "restart" u.restart "wantedby" (by decide),
      cfgGet_optEntry_ne "user" u.user "wantedby" (by decide),
      cfgGet_cmdEntry_ne "execstart" u.exec_start "wantedby" (by decide),
      cfgGet_cmdEntry_ne "execstop" u.exec_stop "wantedby" (by decide),
      cfgGet_single_self (("wantedby" : String).data) _ "wantedby" (by decide)]
  simp

/-- C1 (amended): for every unit whose interpolated text fields are
newline-free, whose command strings are absent or nonempty without trailing
whitespace, whose `working_directory`/`restart`/`user` are unset or nonempty
without trailing whitespace, and whose `wanted_by` has no trailing
whitespace, parsing the generated descriptor under the unit's own name
recovers the `exec_start`/`exec_stop` command strings, `working_directory`,
`restart`, `user` and `wanted_by` exactly; `environment` is excluded. -/
theorem c1_descriptor_round_trip (u : Unit) (h : RoundTrippableB u = true) :
    ∃ u2 : Unit,
      Unit.from_service_file u.name u.generate_service_file_data u.verbose u.dry_run
          u.systemd_dir = .ok u2
      ∧ u2.exec_start.map Command.command_str = u.exec_start.map Command.command_str
      ∧ u2.exec_stop.map Command.command_str = u.exec_stop.map Command.command_str
      ∧ u2.working_directory = u.working_directory
      ∧ u2.restart = u.restart
      ∧ u2.user = u.user
      ∧ u2.wanted_by = u.wanted_by := by
  simp only [RoundTrippableB, Bool.and_eq_true, and_assoc] at h
  obtain ⟨hnl, hesB, hexB, hwdB, hresB, husrB, hwbB⟩ := h
  have hwbeq : stripRightL u.wanted_by.data = u.wanted_by.data := by simpa using hwbB
  have hcfg : svcConfig u.generate_service_file_data = svcEntries u := svcConfig_generate u hnl
  have hne : svcEntries u ≠ [] := by simp [svcEntries]
  refine ⟨Unit.init u.name ((cfgGet (svcEntries u) "description").getD "")
    (pyOptCmd (cfgGet (svcEntries u) "execstart"))
    (pyOptCmd (cfgGet (svcEntries u) "execstop"))
    (cfgGet (svcEntries u) "workingdirectory") (cfgGet (svcEntries u) "type")
    (cfgGet (svcEntries u) "restart") (cfgGet (svcEntries u) "user")
    (some [])
    ((cfgGet (svcEntries u) "wantedby").getD "multi-user.target")
    (cfgGet (svcEntries u) "after") (cfgGet (svcEntries u) "requires")
    u.verbose u.dry_run u.systemd_dir, ?_, ?_, ?_, ?_, ?_, ?_, ?_⟩
  · simp only [Unit.from_service_file, hcfg]
    rw [if_neg hne]
  · simp only [Unit.init]
    rw [cfgGet_entries_execstart]
    cases hc : u.exec_start with
    | none => rfl
    | some c =>
      rw [hc] at hesB
      simp only [strOkCmdB, Bool.and_eq_true, decide_eq_true_eq, beq_iff_eq] at hesB
      obtain ⟨h1, h2⟩ := hesB
      have hmap : (some c).map (fun c => (⟨stripRightL c.command_str.data⟩ : String))
          = some (⟨stripRightL c.command_str.data⟩ : String) := rfl
      rw [hmap, h2]
      have heta : (⟨c.command_str.data⟩ : String) = c.command_str := rfl
      rw [heta]
      have hpo : pyOptCmd (some c.command_str)
          = if c.command_str = "" then none
            else some (Command.initDefault c.command_str) := rfl
      rw [hpo, if_neg h1]
      rfl
  · simp only [Unit.init]
    rw [cfgGet_entries_execstop]
    cases hc : u.exec_stop with
    | none => rfl
    | some c =>
      rw [hc] at hexB
      simp only [strOkCmdB, Bool.and_eq_true, decide_eq_true_eq, beq_iff_eq] at hexB
      obtain ⟨h1, h2⟩ := hexB
      have hmap : (some c).map (fun c => (⟨stripRightL c.command_str.data⟩ : String))
          = some (⟨stripRightL c.command_str.data⟩ : String) := rfl
      rw [hmap, h2]
      have heta : (⟨c.command_str.data⟩ : String) = c.command_str := rfl
      rw [heta]
      have hpo : pyOptCmd (some c.command_str)
          = if c.command_str = "" then none
            else some (Command.initDefault c.command_str) := rfl
      rw [hpo, if_neg h1]
      rfl
  · simp only [Unit.init]
    rw [cfgGet_entries_workingdirectory]
    cases hc : u.working_directory with
    | none => rfl
    | some s =>
      rw [hc] at hwdB
      simp only [strOkOptB, Bool.and_eq_true, decide_eq_true_eq, beq_iff_eq] at hwdB
      obtain ⟨h1, h2⟩ := hwdB
      have hb : (some s).bind
          (fun s => if s = "" then none else some (⟨stripRightL s.data⟩ : String))
          = if s = "" then none else some (⟨stripRightL s.data⟩ : String) := rfl
      rw [hb, if_neg h1, h2]
  · simp only [Unit.init]
    rw [cfgGet_entries_restart]
    cases hc : u.restart with
    | none => rfl
    | some s =>
      rw [hc] at hresB
      simp only [strOkOptB, Bool.and_eq_true, decide_eq_true_eq, beq_iff_eq] at hresB
      obtain ⟨h1, h2⟩ := hresB
      have hb : (some s).bind
          (fun s => if s = "" then none else some (⟨stripRightL s.data⟩ : String))
          = if s = "" then none else some (⟨stripRightL s.data⟩ : String) := rfl
      rw [hb, if_neg h1, h2]
  · simp only [Unit.init]
    rw [cfgGet_entries_user]
    cases hc : u.user with
    | none => rfl
    | some s =>
      rw [hc] at husrB
      simp only [strOkOptB, Bool.and_eq_true, decide_eq_true_eq, beq_iff_eq] at husrB
      obtain ⟨h1, h2⟩ := husrB
      have hb : (some s).bind
          (fun s => if s = "" then none else some (⟨stripRightL s.data⟩ : String))
          = if s = "" then none else some (⟨stripRightL s.data⟩ : String) := rfl
      rw [hb, if_neg h1, h2]
  · simp only [Unit.init]
    rw [cfgGet_entries_wantedby]
    have hg : (some (⟨stripRightL u.wanted_by.data⟩ : String)).getD "multi-user.target"
        = (⟨stripRightL u.wanted_by.data⟩ : String) := rfl
    rw [hg, hwbeq]

/-- Witness for C1 at a unit exercising every descriptor field. -/
theorem c1_descriptor_round_trip_witness :
    ∃ u2 : Unit,
      Unit.from_service_file fullUnit.name fullUnit.generate_service_file_data
          fullUnit.verbose fullUnit.dry_run fullUnit.systemd_dir = .ok u2
      ∧ u2.exec_start.map Command.command_str = fullUnit.exec_start.map Command.command_str
      ∧ u2.exec_stop.map Command.command_str = fullUnit.exec_stop.map Command.command_str
      ∧ u2.working_directory = fullUnit.working_directory
      ∧ u2.restart = fullUnit.restart
      ∧ u2.user = fullUnit.user
      ∧ u2.wanted_by = fullUnit.wanted_by :=
  c1_descriptor_round_trip fullUnit (by decide)

/-- Counterexample to C1 as stated: a whitespace-only `working_directory` is
truthy, so its line is emitted, but `line.strip()` in the parser erases the
value — the round trip returns the empty string instead of the original. -/
theorem c1_counterexample :
    (Unit.from_service_file webUnitWsDir.name webUnitWsDir.generate_service_file_data
        webUnitWsDir.verbose webUnitWsDir.dry_run webUnitWsDir.systemd_dir).map
      Unit.working_directory = .ok (some "")
  ∧ webUnitWsDir.working_directory = some " " := by decide

/-- C3 (amended): the generated text's lines are exactly the nonempty
generated entries — every empty or unset optional field yields no line, and
the `""` block separators are likewise removed by `filter(None, ...)`, so the
output contains no blank line at all (for units whose fields are
newline-free). -/
theorem c3_no_blank_lines (u : Unit) (h : UnitNoNLb u = true) :
    linesOf u.generate_service_file_data = u.serviceFileLines.filter (fun s => s ≠ "")
  ∧ "" ∉ linesOf u.generate_service_file_data := by
  have heq : linesOf u.generate_service_file_data
      = u.serviceFileLines.filter fun s => s ≠ "" := by
    unfold Unit.generate_service_file_data
    apply linesOf_joinLines
    · intro s hs
      exact serviceFileLines_noNL u h s (List.mem_of_mem_filter hs)
    · have hmem : ("[Unit]" : String) ∈ u.serviceFileLines.filter fun s => s ≠ "" :=
        List.mem_filter.2 ⟨by simp [Unit.serviceFileLines], by decide⟩
      exact List.ne_nil_of_mem hmem
  refine ⟨heq, ?_⟩
  rw [heq]
  intro hmem
  have := List.of_mem_filter hmem
  simp at this

/-- Witness for C3 at the scenario unit. -/
theorem c3_no_blank_lines_witness :
    linesOf webUnit.generate_service_file_data
      = webUnit.serviceFileLines.filter (fun s => s ≠ "")
  ∧ "" ∉ linesOf webUnit.generate_service_file_data :=
  c3_no_blank_lines webUnit (by decide)

/-- Counterexample to C3 as stated: for the scenario unit, whose identity and
execution blocks are both nonempty, the output contains no blank separator
line between blocks — `filter(None, lines)` drops the `""` separators too. -/
theorem c3_counterexample :
    linesOf webUnit.generate_service_file_data =
      ["[Unit]", "Description=web", "[Service]", "Type=oneshot",
       "ExecStart=echo start", "ExecStop=echo stop", "Environment=PORT=8080",
       "[Install]", "WantedBy=multi-user.target"] := by decide

end Sysinit
